import Mathlib

/-!
Shallow embedding of the payroll calculation engine and payroll lifecycle
orchestrator of the `activity_ing` repository (FastAPI + SQLAlchemy payroll
system), together with proofs about the specification claims.

Conventions of the embedding:

* Python `Decimal` values (money, hours, sales, percentages) are embedded as
  exact rationals `ℚ`.  The source converts values through `float` before
  rounding (`helpers.redondear_decimal` does `Decimal(str(round(float, 2)))`);
  the embedding idealises that as exact round-half-to-even on rationals, which
  agrees with the source away from binary-representation corner cases.
* `datetime.date` is embedded as a `Fecha` record (year/month/day over `ℤ`)
  with a validity predicate; `date.today()` becomes an explicit `hoy`
  parameter threaded through the functions that consult it.
* The SQLAlchemy session is embedded as an explicit `DB` record of row lists;
  each service operation maps a `DB` to a new `DB` plus an `Except` result.
  An operation that raises before `db.add`/`db.commit` returns the input `DB`
  unchanged, matching the transactional behaviour of the source.
* Python exceptions of `app/utils/exceptions.py` become the constructors of
  `NominaError`.
-/

/-! ### Rounding helpers (`app/utils/helpers.py`) -/

/-- Floor of a rational as an integer, computably (`⌊q⌋`). -/
def ratFloor (q : ℚ) : ℤ := q.num / q.den


/-- Round a rational to the nearest integer, ties to even: the rounding mode
of Python `round`, idealised over exact decimal values. -/
def roundHalfEven (q : ℚ) : ℤ :=
  if q - ratFloor q < 1/2 then ratFloor q
  else if 1/2 < q - ratFloor q then ratFloor q + 1
  else if ratFloor q % 2 = 0 then ratFloor q else ratFloor q + 1

/-- Embedding of `helpers.redondear_decimal(valor, decimales=2)`:
`Decimal(str(round(valor, decimales)))`, i.e. rounding to `decimales` decimal
places, half to even. -/
def redondear_decimal (valor : ℚ) (decimales : ℕ := 2) : ℚ :=
  (roundHalfEven (valor * 10 ^ decimales) : ℚ) / 10 ^ decimales

/-- Embedding of `helpers.calcular_porcentaje(valor, porcentaje)`:
`redondear_decimal((valor * porcentaje) / 100)`. -/
def calcular_porcentaje (valor porcentaje : ℚ) : ℚ :=
  redondear_decimal ((valor * porcentaje) / 100)

/-! ### Dates and tenure (`app/utils/helpers.py`, `dateutil.relativedelta`) -/

/-- A calendar date; embeds Python `datetime.date`. -/
structure Fecha where
  year : ℤ
  month : ℤ
  day : ℤ
deriving DecidableEq

/-- Gregorian leap-year rule. -/
def esBisiesto (y : ℤ) : Bool :=
  (y % 4 == 0 && y % 100 != 0) || y % 400 == 0

/-- Number of days of month `m` of year `y`. -/
def diasEnMes (y m : ℤ) : ℤ :=
  if m = 2 then (if esBisiesto y then 29 else 28)
  else if m = 4 ∨ m = 6 ∨ m = 9 ∨ m = 11 then 30
  else 31

/-- A `Fecha` that represents a real calendar date. -/
def Fecha.Valida (d : Fecha) : Prop :=
  1 ≤ d.month ∧ d.month ≤ 12 ∧ 1 ≤ d.day ∧ d.day ≤ diasEnMes d.year d.month

instance (d : Fecha) : Decidable d.Valida := by
  unfold Fecha.Valida; infer_instance

/-- Chronological strict order on dates (lexicographic on year, month, day). -/
def Fecha.lt (a b : Fecha) : Prop :=
  a.year < b.year ∨
    (a.year = b.year ∧ (a.month < b.month ∨ (a.month = b.month ∧ a.day < b.day)))

instance (a b : Fecha) : Decidable (Fecha.lt a b) := by
  unfold Fecha.lt; infer_instance

/-- Chronological order on dates. -/
def Fecha.le (a b : Fecha) : Prop := Fecha.lt a b ∨ a = b

instance (a b : Fecha) : Decidable (Fecha.le a b) := by
  unfold Fecha.le; infer_instance

/-- Absolute month index of a date (used to compare the month components). -/
def monthIdx (d : Fecha) : ℤ := 12 * d.year + d.month

/-- Embedding of `date + relativedelta(months=k)`: shift the year/month by `k`
months and clamp the day to the length of the target month. -/
def sumarMeses (d : Fecha) (k : ℤ) : Fecha :=
  let i := 12 * d.year + (d.month - 1) + k
  let y := i / 12
  let m := i % 12 + 1
  { year := y, month := m, day := min d.day (diasEnMes y m) }

/-- Month difference computed by `dateutil.relativedelta(dt1, dt2)`:
`months = 12*(dt1.year - dt2.year) + (dt1.month - dt2.month)`, then corrected
by comparing `dt2 + months` against `dt1`.  The `while` loop of the source
moves by at most one month here because consecutive clamped additions land in
adjacent calendar months, so it is rendered as a single conditional step. -/
def mesesEntre (dt1 dt2 : Fecha) : ℤ :=
  let months := 12 * (dt1.year - dt2.year) + (dt1.month - dt2.month)
  if Fecha.lt dt1 dt2 then
    (if Fecha.lt (sumarMeses dt2 months) dt1 then months + 1 else months)
  else
    (if Fecha.lt dt1 (sumarMeses dt2 months) then months - 1 else months)

/-- Years component that `relativedelta._fix` extracts from a month count:
`sign(months) * (|months| div 12)` (truncating division). -/
def aniosDeMeses (months : ℤ) : ℤ :=
  if months < 0 then -((-months) / 12) else months / 12

/-- Embedding of `helpers.calcular_anios_antiguedad(fecha_ingreso,
fecha_referencia)`: `relativedelta(fecha_referencia, fecha_ingreso).years`. -/
def calcular_anios_antiguedad (fecha_ingreso fecha_referencia : Fecha) : ℤ :=
  aniosDeMeses (mesesEntre fecha_referencia fecha_ingreso)

/-- Embedding of the compatibility wrapper `helpers.calcular_anio_antiguedad`.
The implicit `fecha_referencia = date.today()` default of the source is made
an explicit argument. -/
def calcular_anio_antiguedad (fecha_ingreso fecha_referencia : Fecha) : ℤ :=
  calcular_anios_antiguedad fecha_ingreso fecha_referencia

/-! ### Business constants (`app/services/calculadora_nomina.py`) -/

def BONO_ANTIGUEDAD_PORCENTAJE : ℚ := 10
def anio_PARA_BONO_ANTIGUEDAD : ℤ := 5
def BONO_ALIMENTACION : ℚ := 1000000
def COMISION_VENTAS_LIMITE : ℚ := 20000000
def BONO_VENTAS_PORCENTAJE : ℚ := 3
def MULTIPLICADOR_HORA_EXTRA : ℚ := 1.5
def DEDUCCION_SEGURIDAD_SOCIAL_PENSION : ℚ := 4
def DEDUCCION_ARL : ℚ := 0.522
def FONDO_AHORRO_PORCENTAJE : ℚ := 2
def anio_PARA_FONDO_AHORRO : ℤ := 1

/-! ### Domain records -/

/-- Errors of `app/utils/exceptions.py`; each constructor carries the payload
the corresponding exception class stores in its `details`. -/
inductive NominaError where
  | validacionNomina (campo mensaje : String)
  | salarioNegativo (salario_neto : ℚ) (empleado_id : ℕ)
  | empleadoNoEncontrado (empleado_id : ℕ)
  | periodoNoEncontrado (periodo_id : ℕ)
  | periodoCerrado (periodo_id : ℕ)
  | nominaNoEncontrada (id_nomina : ℕ)
  | nominaDuplicada (id_empleado id_periodo id_nomina_existente : ℕ)
deriving DecidableEq

/-- The `message` attribute of the exception (what `str(e)` yields). -/
def NominaError.message : NominaError → String
  | .validacionNomina campo mensaje =>
      "Error de validación en " ++ campo ++ ": " ++ mensaje
  | .salarioNegativo _ _ => "El salario neto no puede ser negativo"
  | .empleadoNoEncontrado i => "Empleado con ID " ++ toString i ++ " no encontrado"
  | .periodoNoEncontrado i => "Período con ID " ++ toString i ++ " no encontrado"
  | .periodoCerrado i =>
      "El período " ++ toString i ++ " está cerrado y no puede modificarse"
  | .nominaNoEncontrada i => "Nómina con ID " ++ toString i ++ " no encontrada"
  | .nominaDuplicada _ _ _ => "Ya existe una nómina para este empleado en el período"

/-- Employee states (`EstadoEmpleadoEnum`). -/
inductive EstadoEmpleado where
  | ACTIVO | INACTIVO | SUSPENDIDO
deriving DecidableEq

/-- An employee row (`app/models/empleado.py`) with its employee type resolved,
as the calculator reads it via `empleado.tipo_empleado.nombre_tipo`.  The type
is kept as the raw string so that the unsupported-type branch of
`calcular_salario_bruto` is representable.  `nombres`/`apellidos` are collapsed
into the derived `nombre_completo` the services actually use.  The SQL
`NULL`-coalescing `or 0` of the source is the identity here because the
monetary fields are total. -/
structure Empleado where
  id_empleado : ℕ
  nombre_completo : String
  nombre_tipo : String
  fecha_ingreso : Fecha
  estado : EstadoEmpleado
  salario_base : ℚ
  tarifa_hora : ℚ
  porcentaje_comision : ℚ
  acepta_fondo_ahorro : Bool
deriving DecidableEq

/-- One entry of the `detalles_bonos` dict built by `calcular_bonos`. -/
structure DetalleBono where
  tipo_bono : String
  descripcion : String
  monto : ℚ
  porcentaje_aplicado : ℚ
deriving DecidableEq

/-- One entry of the `detalles_beneficios` dict built by `calcular_beneficios`. -/
structure DetalleBeneficio where
  tipo_beneficio : String
  descripcion : String
  monto : ℚ
deriving DecidableEq

/-- One entry of the `detalles_deducciones` dict built by
`calcular_deducciones`. -/
structure DetalleDeduccion where
  tipo_deduccion : String
  descripcion : String
  monto : ℚ
  porcentaje_aplicado : ℚ
  base_calculo : ℚ
deriving DecidableEq

/-! ### Calculation engine (`CalculadoraNomina`) -/

/-- Embedding of `CalculadoraNomina._calcular_asalariado`. -/
def calcular_asalariado (empleado : Empleado) : ℚ := empleado.salario_base

/-- Embedding of `CalculadoraNomina._calcular_por_horas`. -/
def calcular_por_horas (empleado : Empleado)
    (horas_trabajadas horas_extras : ℚ) : Except NominaError ℚ :=
  if horas_trabajadas < 0 then
    .error (.validacionNomina "horas_trabajadas"
      "Las horas trabajadas no pueden ser negativas")
  else if horas_extras < 0 then
    .error (.validacionNomina "horas_extras"
      "Las horas extras no pueden ser negativas")
  else
    let tarifa := empleado.tarifa_hora
    let pago_normal := horas_trabajadas * tarifa
    let pago_extras := horas_extras * tarifa * MULTIPLICADOR_HORA_EXTRA
    .ok (redondear_decimal (pago_normal + pago_extras))

/-- Embedding of `CalculadoraNomina._calcular_por_comision`. -/
def calcular_por_comision (empleado : Empleado)
    (ventas_realizadas : ℚ) : Except NominaError ℚ :=
  if ventas_realizadas < 0 then
    .error (.validacionNomina "ventas_realizadas"
      "Las ventas no pueden ser negativas")
  else
    let comision := calcular_porcentaje ventas_realizadas empleado.porcentaje_comision
    .ok (empleado.salario_base + comision)

/-- Embedding of `CalculadoraNomina._calcular_temporal`. -/
def calcular_temporal (empleado : Empleado) : ℚ := empleado.salario_base

/-- Embedding of `CalculadoraNomina.calcular_salario_bruto`: dispatch on
`empleado.tipo_empleado.nombre_tipo`. -/
def calcular_salario_bruto (empleado : Empleado)
    (horas_trabajadas horas_extras ventas_realizadas : ℚ) :
    Except NominaError ℚ :=
  if empleado.nombre_tipo = "ASALARIADO" then
    .ok (calcular_asalariado empleado)
  else if empleado.nombre_tipo = "POR_HORAS" then
    calcular_por_horas empleado horas_trabajadas horas_extras
  else if empleado.nombre_tipo = "POR_COMISION" then
    calcular_por_comision empleado ventas_realizadas
  else if empleado.nombre_tipo = "TEMPORAL" then
    .ok (calcular_temporal empleado)
  else
    .error (.validacionNomina "tipo_empleado"
      ("Tipo de empleado no soportado: " ++ empleado.nombre_tipo))

/-- Embedding of `CalculadoraNomina.calcular_bonos`; the insertion-ordered
dict becomes a list.  `hoy` stands for `date.today()` inside
`calcular_anio_antiguedad`. -/
def calcular_bonos (empleado : Empleado) (ventas_realizadas : ℚ)
    (hoy : Fecha) : ℚ × List DetalleBono :=
  let paso1 : ℚ × List DetalleBono :=
    if empleado.nombre_tipo = "ASALARIADO" then
      let anio_antiguedad := calcular_anio_antiguedad empleado.fecha_ingreso hoy
      if anio_antiguedad ≥ anio_PARA_BONO_ANTIGUEDAD then
        let monto_bono := calcular_porcentaje empleado.salario_base BONO_ANTIGUEDAD_PORCENTAJE
        (monto_bono,
          [{ tipo_bono := "BONO_ANTIGUEDAD"
             descripcion := "Bono por " ++ toString anio_antiguedad ++ " anio de antigüedad"
             monto := monto_bono
             porcentaje_aplicado := BONO_ANTIGUEDAD_PORCENTAJE }])
      else (0, [])
    else (0, [])
  if empleado.nombre_tipo = "POR_COMISION" then
    if ventas_realizadas > COMISION_VENTAS_LIMITE then
      let monto_bono := calcular_porcentaje ventas_realizadas BONO_VENTAS_PORCENTAJE
      (paso1.1 + monto_bono,
        paso1.2 ++
          [{ tipo_bono := "BONO_VENTAS"
             descripcion := "Bono por ventas superiores a $20,000,000"
             monto := monto_bono
             porcentaje_aplicado := BONO_VENTAS_PORCENTAJE }])
    else paso1
  else paso1

/-- Embedding of `CalculadoraNomina.calcular_beneficios`.  The employer-side
savings-fund branch of the source computes `beneficio_fondo = Decimal("0")`
and only emits a line when that constant is positive; it is kept verbatim. -/
def calcular_beneficios (empleado : Empleado) (hoy : Fecha) :
    ℚ × List DetalleBeneficio :=
  let paso1 : ℚ × List DetalleBeneficio :=
    if empleado.nombre_tipo = "ASALARIADO" ∨ empleado.nombre_tipo = "POR_COMISION" then
      (BONO_ALIMENTACION,
        [{ tipo_beneficio := "BONO_ALIMENTACION"
           descripcion := "Subsidio de alimentación mensual"
           monto := BONO_ALIMENTACION }])
    else (0, [])
  if empleado.nombre_tipo = "POR_HORAS" then
    let anio_antiguedad := calcular_anio_antiguedad empleado.fecha_ingreso hoy
    if anio_antiguedad ≥ anio_PARA_FONDO_AHORRO ∧ empleado.acepta_fondo_ahorro then
      let beneficio_fondo : ℚ := 0
      if beneficio_fondo > 0 then
        (paso1.1 + beneficio_fondo,
          paso1.2 ++
            [{ tipo_beneficio := "FONDO_AHORRO"
               descripcion := "Aporte empresarial a fondo de ahorro"
               monto := beneficio_fondo }])
      else paso1
    else paso1
  else paso1

/-- Embedding of `CalculadoraNomina.calcular_deducciones`. -/
def calcular_deducciones (empleado : Empleado) (salario_bruto : ℚ)
    (hoy : Fecha) : ℚ × List DetalleDeduccion :=
  let deduccion_ss := calcular_porcentaje salario_bruto DEDUCCION_SEGURIDAD_SOCIAL_PENSION
  let deduccion_arl := calcular_porcentaje salario_bruto DEDUCCION_ARL
  let base : ℚ × List DetalleDeduccion :=
    (deduccion_ss + deduccion_arl,
      [{ tipo_deduccion := "SEGURIDAD_SOCIAL_PENSION"
         descripcion := "Aporte a Seguridad Social y Pensión"
         monto := deduccion_ss
         porcentaje_aplicado := DEDUCCION_SEGURIDAD_SOCIAL_PENSION
         base_calculo := salario_bruto },
       { tipo_deduccion := "ARL"
         descripcion := "Aporte a Riesgos Laborales"
         monto := deduccion_arl
         porcentaje_aplicado := DEDUCCION_ARL
         base_calculo := salario_bruto }])
  if empleado.nombre_tipo = "POR_HORAS" then
    let anio_antiguedad := calcular_anio_antiguedad empleado.fecha_ingreso hoy
    if anio_antiguedad ≥ anio_PARA_FONDO_AHORRO ∧ empleado.acepta_fondo_ahorro then
      let deduccion_fondo := calcular_porcentaje salario_bruto FONDO_AHORRO_PORCENTAJE
      (base.1 + deduccion_fondo,
        base.2 ++
          [{ tipo_deduccion := "FONDO_AHORRO_EMPLEADO"
             descripcion := "Aporte del empleado a fondo de ahorro"
             monto := deduccion_fondo
             porcentaje_aplicado := FONDO_AHORRO_PORCENTAJE
             base_calculo := salario_bruto }])
    else base
  else base

/-- The dictionary returned by `CalculadoraNomina.calcular_nomina_completa`. -/
structure ResultadoNomina where
  salario_bruto : ℚ
  total_bonos : ℚ
  total_beneficios : ℚ
  total_deducciones : ℚ
  salario_neto : ℚ
  detalles_bonos : List DetalleBono
  detalles_beneficios : List DetalleBeneficio
  detalles_deducciones : List DetalleDeduccion
deriving DecidableEq

/-- Embedding of `CalculadoraNomina.calcular_nomina_completa`: gross, then
bonuses, then benefits, then deductions, then the net check. -/
def calcular_nomina_completa (empleado : Empleado)
    (horas_trabajadas horas_extras ventas_realizadas : ℚ) (hoy : Fecha) :
    Except NominaError ResultadoNomina :=
  match calcular_salario_bruto empleado horas_trabajadas horas_extras ventas_realizadas with
  | .error e => .error e
  | .ok salario_bruto =>
    let bonos := calcular_bonos empleado ventas_realizadas hoy
    let beneficios := calcular_beneficios empleado hoy
    let deducciones := calcular_deducciones empleado salario_bruto hoy
    let salario_neto := salario_bruto + bonos.1 + beneficios.1 - deducciones.1
    if salario_neto < 0 then
      .error (.salarioNegativo salario_neto empleado.id_empleado)
    else
      .ok { salario_bruto := salario_bruto
            total_bonos := bonos.1
            total_beneficios := beneficios.1
            total_deducciones := deducciones.1
            salario_neto := salario_neto
            detalles_bonos := bonos.2
            detalles_beneficios := beneficios.2
            detalles_deducciones := deducciones.2 }

/-! ### Concrete fixtures used by witnesses -/

/-- A reference date used as `date.today()` in concrete instances. -/
def hoy0 : Fecha := { year := 2026, month := 10, day := 12 }

/-- A concrete TEMPORAL employee. -/
def empleadoTemporal0 : Empleado :=
  { id_empleado := 1
    nombre_completo := "Ana Gomez"
    nombre_tipo := "TEMPORAL"
    fecha_ingreso := { year := 2020, month := 1, day := 10 }
    estado := .ACTIVO
    salario_base := 100
    tarifa_hora := 0
    porcentaje_comision := 0
    acepta_fondo_ahorro := false }


/-- A concrete POR_HORAS employee with the hourly rate of the spec scenario. -/
def empleadoPorHoras0 : Empleado :=
  { id_empleado := 2
    nombre_completo := "Luis Diaz"
    nombre_tipo := "POR_HORAS"
    fecha_ingreso := { year := 2024, month := 3, day := 1 }
    estado := .ACTIVO
    salario_base := 0
    tarifa_hora := 20000
    porcentaje_comision := 0
    acepta_fondo_ahorro := true }

/-- A concrete ASALARIADO employee hired on 2019-06-15. -/
def empleadoAsalariado0 : Empleado :=
  { id_empleado := 3
    nombre_completo := "Rosa Perez"
    nombre_tipo := "ASALARIADO"
    fecha_ingreso := { year := 2019, month := 6, day := 15 }
    estado := .ACTIVO
    salario_base := 2000000
    tarifa_hora := 0
    porcentaje_comision := 0
    acepta_fondo_ahorro := false }

/-! ### Persistence model (`app/models`, `app/repositories`, session) -/

/-- Period states (`EstadoPeriodoEnum`). -/
inductive EstadoPeriodo where
  | ABIERTO | EN_PROCESO | CERRADO | PAGADO
deriving DecidableEq

/-- A payroll-period row (`app/models/periodo_nomina.py`), restricted to the
fields the orchestrator reads. -/
structure PeriodoNomina where
  id_periodo : ℕ
  anio : ℤ
  mes : ℤ
  estado : EstadoPeriodo
deriving DecidableEq

/-- The `esta_cerrado` property: `estado in [CERRADO, PAGADO]`. -/
def PeriodoNomina.esta_cerrado (p : PeriodoNomina) : Bool :=
  match p.estado with
  | .CERRADO => true
  | .PAGADO => true
  | _ => false

/-- A payroll header row (`app/models/nomina.py`). -/
structure Nomina where
  id_nomina : ℕ
  id_empleado : ℕ
  id_periodo : ℕ
  horas_trabajadas : ℚ
  horas_extras : ℚ
  ventas_realizadas : ℚ
  salario_bruto : ℚ
  total_bonos : ℚ
  total_beneficios : ℚ
  total_deducciones : ℚ
  salario_neto : ℚ
  calculado_por : String
deriving DecidableEq

/-- An audit row (`app/models/auditoria_nomina.py`); the JSON snapshots become
association lists. -/
structure AuditoriaNomina where
  id_nomina : ℕ
  accion : String
  usuario : String
  descripcion : String
  valores_anteriores : Option (List (String × ℚ))
  valores_nuevos : Option (List (String × ℚ))
deriving DecidableEq

/-- The visible state of the database: one list of rows per table, in
insertion order, plus the autoincrement counter for payroll ids.  Detail rows
are `(id_nomina, payload)` pairs. -/
structure DB where
  empleados : List Empleado
  periodos : List PeriodoNomina
  nominas : List Nomina
  bonos : List (ℕ × DetalleBono)
  beneficios : List (ℕ × DetalleBeneficio)
  deducciones : List (ℕ × DetalleDeduccion)
  auditorias : List AuditoriaNomina
  next_id_nomina : ℕ
deriving DecidableEq

/-- `EmpleadoRepository.get_by_id`. -/
def empleado_get_by_id (db : DB) (id : ℕ) : Option Empleado :=
  db.empleados.find? (fun e => e.id_empleado == id)

/-- `PeriodoNominaRepository.get_by_id`. -/
def periodo_get_by_id (db : DB) (id : ℕ) : Option PeriodoNomina :=
  db.periodos.find? (fun p => p.id_periodo == id)

/-- `NominaRepository.get_by_id`. -/
def nomina_get_by_id (db : DB) (id : ℕ) : Option Nomina :=
  db.nominas.find? (fun n => n.id_nomina == id)

/-- `NominaRepository.get_by_empleado_periodo`. -/
def get_by_empleado_periodo (db : DB) (id_empleado id_periodo : ℕ) : Option Nomina :=
  db.nominas.find? (fun n => n.id_empleado == id_empleado && n.id_periodo == id_periodo)

/-- `NominaRepository.exists_nomina`. -/
def exists_nomina (db : DB) (id_empleado id_periodo : ℕ) : Bool :=
  (get_by_empleado_periodo db id_empleado id_periodo).isSome

/-- `EmpleadoRepository.get_all_activos(skip=0, limit=100)`: the SQL
`filter(estado == ACTIVO).offset(skip).limit(limit)`. -/
def get_all_activos (db : DB) (skip : ℕ := 0) (limit : ℕ := 100) : List Empleado :=
  ((db.empleados.filter (fun e => e.estado == EstadoEmpleado.ACTIVO)).drop skip).take limit

/-- Input schema `NominaCreate` (after its pydantic `None → 0` coalescing). -/
structure NominaCreate where
  id_empleado : ℕ
  id_periodo : ℕ
  horas_trabajadas : ℚ
  horas_extras : ℚ
  ventas_realizadas : ℚ
deriving DecidableEq

/-- Input schema `NominaUpdate`: unset fields are `none`. -/
structure NominaUpdate where
  horas_trabajadas : Option ℚ
  horas_extras : Option ℚ
  ventas_realizadas : Option ℚ
deriving DecidableEq

/-! ### Orchestrator (`NominaService`) -/

/-- Embedding of `NominaService.calcular_y_crear_nomina`: validate employee,
period, open state and uniqueness, compute, then persist header, detail rows
and one CREAR audit entry atomically.  Every failing path returns the input
`DB` unchanged (the source raises before any `db.add`). -/
def calcular_y_crear_nomina (db : DB) (nomina_data : NominaCreate)
    (usuario : String) (hoy : Fecha) : DB × Except NominaError Nomina :=
  match empleado_get_by_id db nomina_data.id_empleado with
  | none => (db, .error (.empleadoNoEncontrado nomina_data.id_empleado))
  | some empleado =>
    match periodo_get_by_id db nomina_data.id_periodo with
    | none => (db, .error (.periodoNoEncontrado nomina_data.id_periodo))
    | some periodo =>
      if periodo.esta_cerrado then
        (db, .error (.periodoCerrado nomina_data.id_periodo))
      else
        match get_by_empleado_periodo db nomina_data.id_empleado nomina_data.id_periodo with
        | some nomina_existente =>
            (db, .error (.nominaDuplicada nomina_data.id_empleado nomina_data.id_periodo
              nomina_existente.id_nomina))
        | none =>
          match calcular_nomina_completa empleado nomina_data.horas_trabajadas
              nomina_data.horas_extras nomina_data.ventas_realizadas hoy with
          | .error err => (db, .error err)
          | .ok calculo =>
            let nomina : Nomina :=
              { id_nomina := db.next_id_nomina
                id_empleado := nomina_data.id_empleado
                id_periodo := nomina_data.id_periodo
                horas_trabajadas := nomina_data.horas_trabajadas
                horas_extras := nomina_data.horas_extras
                ventas_realizadas := nomina_data.ventas_realizadas
                salario_bruto := calculo.salario_bruto
                total_bonos := calculo.total_bonos
                total_beneficios := calculo.total_beneficios
                total_deducciones := calculo.total_deducciones
                salario_neto := calculo.salario_neto
                calculado_por := usuario }
            let auditoria : AuditoriaNomina :=
              { id_nomina := nomina.id_nomina
                accion := "CREAR"
                usuario := usuario
                descripcion := "Nómina calculada para " ++ empleado.nombre_completo
                valores_anteriores := none
                valores_nuevos := some
                  [("salario_bruto", calculo.salario_bruto),
                   ("salario_neto", calculo.salario_neto),
                   ("total_bonos", calculo.total_bonos),
                   ("total_beneficios", calculo.total_beneficios),
                   ("total_deducciones", calculo.total_deducciones)] }
            ({ db with
                nominas := db.nominas ++ [nomina]
                bonos := db.bonos ++
                  calculo.detalles_bonos.map (fun b => (nomina.id_nomina, b))
                beneficios := db.beneficios ++
                  calculo.detalles_beneficios.map (fun b => (nomina.id_nomina, b))
                deducciones := db.deducciones ++
                  calculo.detalles_deducciones.map (fun d => (nomina.id_nomina, d))
                auditorias := db.auditorias ++ [auditoria]
                next_id_nomina := db.next_id_nomina + 1 },
              .ok nomina)

/-- Embedding of `NominaService.recalcular_nomina`: resolve the payroll, check
the period is open, apply only the provided input fields, recompute, replace
(delete-then-insert) all detail rows, update the header and append one
RECALCULAR audit entry.  The period and employee lookups follow the ORM
relationships `nomina.periodo` / `nomina.empleado`; their `none` cases are
unreachable when referential integrity holds. -/
def recalcular_nomina (db : DB) (id_nomina : ℕ) (nomina_update : NominaUpdate)
    (usuario : String) (hoy : Fecha) : DB × Except NominaError Nomina :=
  match nomina_get_by_id db id_nomina with
  | none => (db, .error (.nominaNoEncontrada id_nomina))
  | some nomina =>
    match periodo_get_by_id db nomina.id_periodo with
    | none => (db, .error (.periodoNoEncontrado nomina.id_periodo))
    | some periodo =>
      if periodo.esta_cerrado then
        (db, .error (.periodoCerrado nomina.id_periodo))
      else
        match empleado_get_by_id db nomina.id_empleado with
        | none => (db, .error (.empleadoNoEncontrado nomina.id_empleado))
        | some empleado =>
          let valores_anteriores : List (String × ℚ) :=
            [("horas_trabajadas", nomina.horas_trabajadas),
             ("horas_extras", nomina.horas_extras),
             ("ventas_realizadas", nomina.ventas_realizadas),
             ("salario_bruto", nomina.salario_bruto),
             ("salario_neto", nomina.salario_neto)]
          let horas := nomina_update.horas_trabajadas.getD nomina.horas_trabajadas
          let extras := nomina_update.horas_extras.getD nomina.horas_extras
          let ventas := nomina_update.ventas_realizadas.getD nomina.ventas_realizadas
          match calcular_nomina_completa empleado horas extras ventas hoy with
          | .error err => (db, .error err)
          | .ok calculo =>
            let nomina2 : Nomina :=
              { nomina with
                  horas_trabajadas := horas
                  horas_extras := extras
                  ventas_realizadas := ventas
                  salario_bruto := calculo.salario_bruto
                  total_bonos := calculo.total_bonos
                  total_beneficios := calculo.total_beneficios
                  total_deducciones := calculo.total_deducciones
                  salario_neto := calculo.salario_neto
                  calculado_por := usuario }
            let auditoria : AuditoriaNomina :=
              { id_nomina := nomina.id_nomina
                accion := "RECALCULAR"
                usuario := usuario
                descripcion := "Nómina recalculada con nuevos datos"
                valores_anteriores := some valores_anteriores
                valores_nuevos := some
                  [("horas_trabajadas", horas),
                   ("horas_extras", extras),
                   ("ventas_realizadas", ventas),
                   ("salario_bruto", calculo.salario_bruto),
                   ("salario_neto", calculo.salario_neto)] }
            ({ db with
                nominas := db.nominas.map
                  (fun n => if n.id_nomina == id_nomina then nomina2 else n)
                bonos := db.bonos.filter (fun r => r.1 != id_nomina) ++
                  calculo.detalles_bonos.map (fun b => (nomina.id_nomina, b))
                beneficios := db.beneficios.filter (fun r => r.1 != id_nomina) ++
                  calculo.detalles_beneficios.map (fun b => (nomina.id_nomina, b))
                deducciones := db.deducciones.filter (fun r => r.1 != id_nomina) ++
                  calculo.detalles_deducciones.map (fun d => (nomina.id_nomina, d))
                auditorias := db.auditorias ++ [auditoria] },
              .ok nomina2)

/-- One success entry of the bulk result (`nominas_exitosas`). -/
structure ResultadoExito where
  empleado_id : ℕ
  empleado_nombre : String
  nomina_id : ℕ
  salario_neto : ℚ
deriving DecidableEq

/-- One failure entry of the bulk result (`nominas_fallidas`). -/
structure ResultadoFallo where
  empleado_id : ℕ
  empleado_nombre : String
  error : String
deriving DecidableEq

/-- The `resultados` dictionary of `calcular_nominas_periodo`. -/
structure ResultadosMasivos where
  periodo_id : ℕ
  total_empleados : ℕ
  nominas_exitosas : List ResultadoExito
  nominas_fallidas : List ResultadoFallo
  total_exitosas : ℕ
  total_fallidas : ℕ
deriving DecidableEq

/-- Body of the per-employee loop of `calcular_nominas_periodo`: the
duplicate pre-check records a failure, otherwise the create call runs and any
exception it raises is downgraded to a failure entry (`str(e)`); processing
always continues with the accumulated state. -/
def procesarEmpleado (id_periodo : ℕ) (usuario : String) (hoy : Fecha)
    (acc : DB × ResultadosMasivos) (empleado : Empleado) : DB × ResultadosMasivos :=
  let db := acc.1
  let res := acc.2
  if exists_nomina db empleado.id_empleado id_periodo then
    (db, { res with
        nominas_fallidas := res.nominas_fallidas ++
          [{ empleado_id := empleado.id_empleado
             empleado_nombre := empleado.nombre_completo
             error := "Ya existe nómina para este período" }]
        total_fallidas := res.total_fallidas + 1 })
  else
    let nomina_data : NominaCreate :=
      { id_empleado := empleado.id_empleado
        id_periodo := id_periodo
        horas_trabajadas := 0
        horas_extras := 0
        ventas_realizadas := 0 }
    match calcular_y_crear_nomina db nomina_data usuario hoy with
    | (db2, .ok nomina) =>
        (db2, { res with
            nominas_exitosas := res.nominas_exitosas ++
              [{ empleado_id := empleado.id_empleado
                 empleado_nombre := empleado.nombre_completo
                 nomina_id := nomina.id_nomina
                 salario_neto := nomina.salario_neto }]
            total_exitosas := res.total_exitosas + 1 })
    | (db2, .error err) =>
        (db2, { res with
            nominas_fallidas := res.nominas_fallidas ++
              [{ empleado_id := empleado.id_empleado
                 empleado_nombre := empleado.nombre_completo
                 error := err.message }]
            total_fallidas := res.total_fallidas + 1 })

/-- Embedding of `NominaService.calcular_nominas_periodo` (the bulk period
processor): validate the period, snapshot the active employees once via
`get_all_activos()` (with its default `skip = 0`, `limit = 100`), then fold
the per-employee step over the snapshot. -/
def calcular_nominas_periodo (db : DB) (id_periodo : ℕ) (usuario : String)
    (hoy : Fecha) : DB × Except NominaError ResultadosMasivos :=
  match periodo_get_by_id db id_periodo with
  | none => (db, .error (.periodoNoEncontrado id_periodo))
  | some periodo =>
    if periodo.esta_cerrado then
      (db, .error (.periodoCerrado id_periodo))
    else
      let empleados_activos := get_all_activos db
      let res0 : ResultadosMasivos :=
        { periodo_id := id_periodo
          total_empleados := empleados_activos.length
          nominas_exitosas := []
          nominas_fallidas := []
          total_exitosas := 0
          total_fallidas := 0 }
      let acc := empleados_activos.foldl (procesarEmpleado id_periodo usuario hoy) (db, res0)
      (acc.1, .ok acc.2)

/-! ### Fixtures for the orchestrator claims -/

/-- A concrete open period. -/
def periodoAbierto0 : PeriodoNomina :=
  { id_periodo := 1, anio := 2026, mes := 10, estado := .ABIERTO }

/-- A concrete existing payroll for employee 1 in period 1. -/
def nomina0 : Nomina :=
  { id_nomina := 7
    id_empleado := 1
    id_periodo := 1
    horas_trabajadas := 0
    horas_extras := 0
    ventas_realizadas := 0
    salario_bruto := 100
    total_bonos := 0
    total_beneficios := 0
    total_deducciones := 4.52
    salario_neto := 95.48
    calculado_por := "SYSTEM" }

/-- A database holding one employee, one open period and one payroll. -/
def db0 : DB :=
  { empleados := [empleadoTemporal0]
    periodos := [periodoAbierto0]
    nominas := [nomina0]
    bonos := []
    beneficios := []
    deducciones := []
    auditorias := []
    next_id_nomina := 8 }

/-- The creation request clashing with `nomina0`. -/
def create0 : NominaCreate :=
  { id_empleado := 1, id_periodo := 1
    horas_trabajadas := 0, horas_extras := 0, ventas_realizadas := 0 }

/-- The `i`-th of a family of ACTIVE employees used to exceed the bulk
processor's query limit. -/
def empleadoActivoN (i : ℕ) : Empleado :=
  { id_empleado := i + 1
    nombre_completo := "Empleado " ++ toString (i + 1)
    nombre_tipo := "TEMPORAL"
    fecha_ingreso := { year := 2020, month := 1, day := 1 }
    estado := .ACTIVO
    salario_base := 0
    tarifa_hora := 0
    porcentaje_comision := 0
    acepta_fondo_ahorro := false }

/-- A database with 101 ACTIVE employees and one open period. -/
def dbMasivo : DB :=
  { empleados := (List.range 101).map empleadoActivoN
    periodos := [periodoAbierto0]
    nominas := []
    bonos := []
    beneficios := []
    deducciones := []
    auditorias := []
    next_id_nomina := 1 }


/-- Update request leaving every input field unset. -/
def upd0 : NominaUpdate :=
  { horas_trabajadas := none, horas_extras := none, ventas_realizadas := none }

/-- The 4% pension line on a gross of 100. -/
def deduccionSS0 : DetalleDeduccion :=
  { tipo_deduccion := "SEGURIDAD_SOCIAL_PENSION"
    descripcion := "Aporte a Seguridad Social y Pensión"
    monto := 4
    porcentaje_aplicado := 4
    base_calculo := 100 }

/-- The 0.522% ARL line on a gross of 100. -/
def deduccionARL0 : DetalleDeduccion :=
  { tipo_deduccion := "ARL"
    descripcion := "Aporte a Riesgos Laborales"
    monto := 0.52
    porcentaje_aplicado := 0.522
    base_calculo := 100 }

/-- The full engine result for `empleadoTemporal0` with zero inputs. -/
def calculo0 : ResultadoNomina :=
  { salario_bruto := 100
    total_bonos := 0
    total_beneficios := 0
    total_deducciones := 4.52
    salario_neto := 95.48
    detalles_bonos := []
    detalles_beneficios := []
    detalles_deducciones := [deduccionSS0, deduccionARL0] }

/-- The audit entry appended by recalculating `nomina0` with `upd0`. -/
def audit0 : AuditoriaNomina :=
  { id_nomina := 7
    accion := "RECALCULAR"
    usuario := "SYSTEM"
    descripcion := "Nómina recalculada con nuevos datos"
    valores_anteriores := some
      [("horas_trabajadas", 0), ("horas_extras", 0), ("ventas_realizadas", 0),
       ("salario_bruto", 100), ("salario_neto", 95.48)]
    valores_nuevos := some
      [("horas_trabajadas", 0), ("horas_extras", 0), ("ventas_realizadas", 0),
       ("salario_bruto", 100), ("salario_neto", 95.48)] }

/-- The database state after recalculating `nomina0` once. -/
def db1w : DB :=
  { empleados := [empleadoTemporal0]
    periodos := [periodoAbierto0]
    nominas := [nomina0]
    bonos := []
    beneficios := []
    deducciones := [(7, deduccionSS0), (7, deduccionARL0)]
    auditorias := [audit0]
    next_id_nomina := 8 }

/-! ### Bounds on the rounding helpers -/

theorem ratFloor_eq_floor (q : ℚ) : ratFloor q = ⌊q⌋ := (Rat.floor_def).symm

theorem roundHalfEven_eq_floor_form (q : ℚ) :
    roundHalfEven q =
      if q - ⌊q⌋ < 1/2 then ⌊q⌋
      else if 1/2 < q - ⌊q⌋ then ⌊q⌋ + 1
      else if ⌊q⌋ % 2 = 0 then ⌊q⌋ else ⌊q⌋ + 1 := by
  rw [roundHalfEven, ratFloor_eq_floor]



theorem roundHalfEven_le (q : ℚ) : (roundHalfEven q : ℚ) ≤ q + 1/2 := by
  have hfl : (⌊q⌋ : ℚ) ≤ q := Int.floor_le q
  rw [roundHalfEven_eq_floor_form]
  split
  · linarith
  · split
    · push_cast; linarith
    · split <;> push_cast <;> linarith

theorem roundHalfEven_nonneg (q : ℚ) (hq : 0 ≤ q) : 0 ≤ roundHalfEven q := by
  have hfl : 0 ≤ ⌊q⌋ := Int.floor_nonneg.mpr hq
  rw [roundHalfEven_eq_floor_form]
  split
  · exact hfl
  · split
    · omega
    · split <;> omega

theorem roundHalfEven_eq_zero (q : ℚ) (h0 : 0 ≤ q) (h1 : q < 1/2) :
    roundHalfEven q = 0 := by
  have hfl : ⌊q⌋ = 0 := by
    rw [Int.floor_eq_zero_iff]
    constructor
    · exact h0
    · linarith
  rw [roundHalfEven_eq_floor_form, hfl]
  rw [if_pos (by push_cast; linarith)]

theorem redondear_decimal_le (x : ℚ) : redondear_decimal x ≤ x + 1/200 := by
  have h := roundHalfEven_le (x * 10 ^ 2)
  rw [redondear_decimal]
  rw [div_le_iff₀ (by norm_num : (0:ℚ) < 10 ^ 2)]
  norm_num at h ⊢
  linarith

theorem redondear_decimal_nonneg (x : ℚ) (hx : 0 ≤ x) : 0 ≤ redondear_decimal x := by
  have h : (0:ℤ) ≤ roundHalfEven (x * 10 ^ 2) :=
    roundHalfEven_nonneg _ (by positivity)
  rw [redondear_decimal]
  positivity

theorem redondear_decimal_eq_zero (x : ℚ) (h0 : 0 ≤ x) (h1 : x < 1/200) :
    redondear_decimal x = 0 := by
  have h : roundHalfEven (x * 10 ^ 2) = 0 :=
    roundHalfEven_eq_zero _ (by positivity) (by norm_num; linarith)
  rw [redondear_decimal, h]
  norm_num

theorem calcular_porcentaje_nonneg (v p : ℚ) (hv : 0 ≤ v) (hp : 0 ≤ p) :
    0 ≤ calcular_porcentaje v p :=
  redondear_decimal_nonneg _ (by positivity)

theorem calcular_porcentaje_le (v p : ℚ) :
    calcular_porcentaje v p ≤ v * p / 100 + 1/200 :=
  redondear_decimal_le _

/-- Key arithmetic fact behind the unreachability of the negative-net branch:
the three deduction percentages of the rate table, each rounded to cents, sum
to at most the (nonnegative) gross amount. -/
theorem suma_deducciones_le (g : ℚ) (hg : 0 ≤ g) :
    calcular_porcentaje g DEDUCCION_SEGURIDAD_SOCIAL_PENSION +
      calcular_porcentaje g DEDUCCION_ARL +
      calcular_porcentaje g FONDO_AHORRO_PORCENTAJE ≤ g := by
  rw [DEDUCCION_SEGURIDAD_SOCIAL_PENSION, DEDUCCION_ARL, FONDO_AHORRO_PORCENTAJE]
  rcases le_or_lt (1/8 : ℚ) g with hge | hlt
  · have h1 := calcular_porcentaje_le g 4
    have h2 := calcular_porcentaje_le g 0.522
    have h3 := calcular_porcentaje_le g 2
    norm_num at h1 h2 h3 ⊢
    linarith
  · have h1 : calcular_porcentaje g 4 = 0 := by
      rw [calcular_porcentaje]
      exact redondear_decimal_eq_zero _ (by positivity) (by linarith)
    have h2 : calcular_porcentaje g 0.522 = 0 := by
      rw [calcular_porcentaje]
      refine redondear_decimal_eq_zero _ (by positivity) ?lt2
      norm_num
      linarith
    have h3 : calcular_porcentaje g 2 = 0 := by
      rw [calcular_porcentaje]
      exact redondear_decimal_eq_zero _ (by positivity) (by linarith)
    rw [h1, h2, h3]
    linarith

example : redondear_decimal (1/8) = 12/100 := by
  norm_num [redondear_decimal, roundHalfEven_eq_floor_form]

example : redondear_decimal (3/8) = 38/100 := by
  norm_num [redondear_decimal, roundHalfEven_eq_floor_form]

example : calcular_porcentaje 20000001 3 = 600000.03 := by
  norm_num [calcular_porcentaje, redondear_decimal, roundHalfEven_eq_floor_form]

example : redondear_decimal 0.005 = 0 := by
  norm_num [redondear_decimal, roundHalfEven_eq_floor_form]

example : redondear_decimal 0.015 = 0.02 := by
  norm_num [redondear_decimal, roundHalfEven_eq_floor_form]


/-! ### Branch-free characterizations of the engine pieces -/

theorem calcular_bonos_eq (e : Empleado) (v : ℚ) (hoy : Fecha) :
    calcular_bonos e v hoy =
      ((if e.nombre_tipo = "ASALARIADO" ∧
            anio_PARA_BONO_ANTIGUEDAD ≤ calcular_anio_antiguedad e.fecha_ingreso hoy then
          calcular_porcentaje e.salario_base BONO_ANTIGUEDAD_PORCENTAJE else 0) +
        (if e.nombre_tipo = "POR_COMISION" ∧ COMISION_VENTAS_LIMITE < v then
          calcular_porcentaje v BONO_VENTAS_PORCENTAJE else 0),
       (if e.nombre_tipo = "ASALARIADO" ∧
            anio_PARA_BONO_ANTIGUEDAD ≤ calcular_anio_antiguedad e.fecha_ingreso hoy then
          [{ tipo_bono := "BONO_ANTIGUEDAD"
             descripcion := "Bono por " ++
               toString (calcular_anio_antiguedad e.fecha_ingreso hoy) ++ " anio de antigüedad"
             monto := calcular_porcentaje e.salario_base BONO_ANTIGUEDAD_PORCENTAJE
             porcentaje_aplicado := BONO_ANTIGUEDAD_PORCENTAJE }] else []) ++
        (if e.nombre_tipo = "POR_COMISION" ∧ COMISION_VENTAS_LIMITE < v then
          [{ tipo_bono := "BONO_VENTAS"
             descripcion := "Bono por ventas superiores a $20,000,000"
             monto := calcular_porcentaje v BONO_VENTAS_PORCENTAJE
             porcentaje_aplicado := BONO_VENTAS_PORCENTAJE }] else [])) := by
  by_cases hA : e.nombre_tipo = "ASALARIADO" <;>
    by_cases hC : e.nombre_tipo = "POR_COMISION" <;>
    simp_all [calcular_bonos] <;>
    split <;> simp_all

theorem calcular_beneficios_eq (e : Empleado) (hoy : Fecha) :
    calcular_beneficios e hoy =
      (if e.nombre_tipo = "ASALARIADO" ∨ e.nombre_tipo = "POR_COMISION" then
        (BONO_ALIMENTACION,
          [{ tipo_beneficio := "BONO_ALIMENTACION"
             descripcion := "Subsidio de alimentación mensual"
             monto := BONO_ALIMENTACION }])
       else ((0 : ℚ), ([] : List DetalleBeneficio))) := by
  by_cases hA : e.nombre_tipo = "ASALARIADO" <;>
    by_cases hC : e.nombre_tipo = "POR_COMISION" <;>
    by_cases hH : e.nombre_tipo = "POR_HORAS" <;>
    simp_all [calcular_beneficios]

theorem calcular_deducciones_eq (e : Empleado) (g : ℚ) (hoy : Fecha) :
    calcular_deducciones e g hoy =
      (calcular_porcentaje g DEDUCCION_SEGURIDAD_SOCIAL_PENSION +
         calcular_porcentaje g DEDUCCION_ARL +
         (if e.nombre_tipo = "POR_HORAS" ∧
              anio_PARA_FONDO_AHORRO ≤ calcular_anio_antiguedad e.fecha_ingreso hoy ∧
              e.acepta_fondo_ahorro = true then
            calcular_porcentaje g FONDO_AHORRO_PORCENTAJE else 0),
       [{ tipo_deduccion := "SEGURIDAD_SOCIAL_PENSION"
          descripcion := "Aporte a Seguridad Social y Pensión"
          monto := calcular_porcentaje g DEDUCCION_SEGURIDAD_SOCIAL_PENSION
          porcentaje_aplicado := DEDUCCION_SEGURIDAD_SOCIAL_PENSION
          base_calculo := g },
        { tipo_deduccion := "ARL"
          descripcion := "Aporte a Riesgos Laborales"
          monto := calcular_porcentaje g DEDUCCION_ARL
          porcentaje_aplicado := DEDUCCION_ARL
          base_calculo := g }] ++
         (if e.nombre_tipo = "POR_HORAS" ∧
              anio_PARA_FONDO_AHORRO ≤ calcular_anio_antiguedad e.fecha_ingreso hoy ∧
              e.acepta_fondo_ahorro = true then
           [{ tipo_deduccion := "FONDO_AHORRO_EMPLEADO"
              descripcion := "Aporte del empleado a fondo de ahorro"
              monto := calcular_porcentaje g FONDO_AHORRO_PORCENTAJE
              porcentaje_aplicado := FONDO_AHORRO_PORCENTAJE
              base_calculo := g }] else [])) := by
  by_cases hH : e.nombre_tipo = "POR_HORAS" <;>
    by_cases hF : e.acepta_fondo_ahorro = true <;>
    simp_all [calcular_deducciones] <;>
    split <;> simp_all

/-! ### Structural lemmas about the calculation engine -/

theorem calcular_por_horas_ok (e : Empleado) (h hx : ℚ) (hh : 0 ≤ h) (hhx : 0 ≤ hx) :
    calcular_por_horas e h hx =
      .ok (redondear_decimal (h * e.tarifa_hora + hx * e.tarifa_hora * MULTIPLICADOR_HORA_EXTRA)) := by
  rw [calcular_por_horas, if_neg (not_lt.mpr hh), if_neg (not_lt.mpr hhx)]

theorem calcular_por_comision_ok (e : Empleado) (v : ℚ) (hv : 0 ≤ v) :
    calcular_por_comision e v =
      .ok (e.salario_base + calcular_porcentaje v e.porcentaje_comision) := by
  rw [calcular_por_comision, if_neg (not_lt.mpr hv)]

/-- Every error that `calcular_salario_bruto` can produce is a
`ValidacionNominaException`; in particular the gross computation never raises
`SalarioNegativoException`. -/
theorem calcular_salario_bruto_error (e : Empleado) (h hx v : ℚ) (err : NominaError)
    (herr : calcular_salario_bruto e h hx v = .error err) :
    ∃ campo msg, err = .validacionNomina campo msg := by
  simp only [calcular_salario_bruto, calcular_por_horas, calcular_por_comision] at herr
  split_ifs at herr <;>
    simp only [Except.error.injEq, reduceCtorEq] at herr <;>
    exact ⟨_, _, herr.symm⟩

/-- A successful gross computation on nonnegative monetary fields and inputs
yields a nonnegative gross. -/
theorem calcular_salario_bruto_nonneg (e : Empleado) (h hx v g : ℚ)
    (hok : calcular_salario_bruto e h hx v = .ok g)
    (hb : 0 ≤ e.salario_base) (ht : 0 ≤ e.tarifa_hora) (hc : 0 ≤ e.porcentaje_comision)
    (hh : 0 ≤ h) (hhx : 0 ≤ hx) (hv : 0 ≤ v) : 0 ≤ g := by
  have hmul : (0:ℚ) ≤ MULTIPLICADOR_HORA_EXTRA := by norm_num [MULTIPLICADOR_HORA_EXTRA]
  simp only [calcular_salario_bruto] at hok
  split_ifs at hok
  · rw [calcular_asalariado] at hok
    cases hok; exact hb
  · rw [calcular_por_horas_ok e h hx hh hhx] at hok
    cases hok
    refine redondear_decimal_nonneg _ ?s1
    have h1 := mul_nonneg hh ht
    have h2 := mul_nonneg (mul_nonneg hhx ht) hmul
    linarith
  · rw [calcular_por_comision_ok e v hv] at hok
    cases hok
    have := calcular_porcentaje_nonneg v e.porcentaje_comision hv hc
    linarith
  · rw [calcular_temporal] at hok
    cases hok; exact hb

/-- The bonus total is nonnegative whenever base salary and sales are. -/
theorem total_bonos_nonneg (e : Empleado) (v : ℚ) (hoy : Fecha)
    (hb : 0 ≤ e.salario_base) (hv : 0 ≤ v) : 0 ≤ (calcular_bonos e v hoy).1 := by
  have h10 : 0 ≤ calcular_porcentaje e.salario_base BONO_ANTIGUEDAD_PORCENTAJE :=
    calcular_porcentaje_nonneg _ _ hb (by norm_num [BONO_ANTIGUEDAD_PORCENTAJE])
  have h3 : 0 ≤ calcular_porcentaje v BONO_VENTAS_PORCENTAJE :=
    calcular_porcentaje_nonneg _ _ hv (by norm_num [BONO_VENTAS_PORCENTAJE])
  rw [calcular_bonos_eq]
  split_ifs <;> simp <;> linarith

/-- The benefit total is always nonnegative. -/
theorem total_beneficios_nonneg (e : Empleado) (hoy : Fecha) :
    0 ≤ (calcular_beneficios e hoy).1 := by
  rw [calcular_beneficios_eq]
  split_ifs <;> simp <;> norm_num [BONO_ALIMENTACION]

/-- The deduction total never exceeds a nonnegative gross. -/
theorem total_deducciones_le (e : Empleado) (g : ℚ) (hoy : Fecha) (hg : 0 ≤ g) :
    (calcular_deducciones e g hoy).1 ≤ g := by
  have hsum := suma_deducciones_le g hg
  have hfondo : 0 ≤ calcular_porcentaje g FONDO_AHORRO_PORCENTAJE :=
    calcular_porcentaje_nonneg _ _ hg (by norm_num [FONDO_AHORRO_PORCENTAJE])
  rw [calcular_deducciones_eq]
  split_ifs <;> simp <;> linarith

/-! ### Claims C2 and C10 -/

/-- C2: For every employee with a supported type and valid inputs (expressed
as: the gross computation succeeds with value `g`), `calcular_nomina_completa`
computes gross, then bonuses from the sales amount, then benefits, then
deductions from the gross, and returns
`net = gross + total_bonuses + total_benefits - total_deductions`; it fails
with `SalarioNegativoException` exactly when that net is negative, and returns
no result in that case. -/
theorem compute_full_spec (e : Empleado) (h hx v : ℚ) (hoy : Fecha) (g : ℚ)
    (hbruto : calcular_salario_bruto e h hx v = .ok g) :
    (g + (calcular_bonos e v hoy).1 + (calcular_beneficios e hoy).1 -
        (calcular_deducciones e g hoy).1 < 0 →
      calcular_nomina_completa e h hx v hoy =
        .error (.salarioNegativo
          (g + (calcular_bonos e v hoy).1 + (calcular_beneficios e hoy).1 -
            (calcular_deducciones e g hoy).1) e.id_empleado)) ∧
    (0 ≤ g + (calcular_bonos e v hoy).1 + (calcular_beneficios e hoy).1 -
        (calcular_deducciones e g hoy).1 →
      calcular_nomina_completa e h hx v hoy =
        .ok { salario_bruto := g
              total_bonos := (calcular_bonos e v hoy).1
              total_beneficios := (calcular_beneficios e hoy).1
              total_deducciones := (calcular_deducciones e g hoy).1
              salario_neto :=
                g + (calcular_bonos e v hoy).1 + (calcular_beneficios e hoy).1 -
                  (calcular_deducciones e g hoy).1
              detalles_bonos := (calcular_bonos e v hoy).2
              detalles_beneficios := (calcular_beneficios e hoy).2
              detalles_deducciones := (calcular_deducciones e g hoy).2 }) := by
  constructor
  · intro hneg
    simp only [calcular_nomina_completa, hbruto]
    rw [if_pos hneg]
  · intro hpos
    simp only [calcular_nomina_completa, hbruto]
    rw [if_neg (not_lt.mpr hpos)]

theorem compute_full_spec_aux_bruto :
    calcular_salario_bruto empleadoTemporal0 0 0 0 = .ok 100 := by
  simp [calcular_salario_bruto, calcular_temporal, empleadoTemporal0]

theorem compute_full_spec_aux_net :
    0 ≤ (100 : ℚ) + (calcular_bonos empleadoTemporal0 0 hoy0).1 +
      (calcular_beneficios empleadoTemporal0 hoy0).1 -
      (calcular_deducciones empleadoTemporal0 100 hoy0).1 := by
  rw [calcular_bonos_eq, calcular_beneficios_eq, calcular_deducciones_eq]
  simp [empleadoTemporal0]
  norm_num [calcular_porcentaje, redondear_decimal, roundHalfEven_eq_floor_form,
    DEDUCCION_SEGURIDAD_SOCIAL_PENSION, DEDUCCION_ARL]

theorem compute_full_spec_witness :
    calcular_salario_bruto empleadoTemporal0 0 0 0 = .ok 100 ∧
    calcular_nomina_completa empleadoTemporal0 0 0 0 hoy0 =
      .ok { salario_bruto := 100
            total_bonos := (calcular_bonos empleadoTemporal0 0 hoy0).1
            total_beneficios := (calcular_beneficios empleadoTemporal0 hoy0).1
            total_deducciones := (calcular_deducciones empleadoTemporal0 100 hoy0).1
            salario_neto :=
              100 + (calcular_bonos empleadoTemporal0 0 hoy0).1 +
                (calcular_beneficios empleadoTemporal0 hoy0).1 -
                (calcular_deducciones empleadoTemporal0 100 hoy0).1
            detalles_bonos := (calcular_bonos empleadoTemporal0 0 hoy0).2
            detalles_beneficios := (calcular_beneficios empleadoTemporal0 hoy0).2
            detalles_deducciones := (calcular_deducciones empleadoTemporal0 100 hoy0).2 } :=
  ⟨compute_full_spec_aux_bruto,
    (compute_full_spec empleadoTemporal0 0 0 0 hoy0 100 compute_full_spec_aux_bruto).2
      compute_full_spec_aux_net⟩

/-- C10: For every employee whose monetary fields are nonnegative and for all
nonnegative period inputs, `calcular_nomina_completa` never raises
`SalarioNegativoException`: bonuses and benefits are nonnegative and the
rounded deductions (at most 4% + 0.522% + 2% of gross, each rounded to cents)
never exceed the gross, so the net is nonnegative and the negative-net branch
is unreachable. -/
theorem compute_full_never_negative (e : Empleado) (h hx v : ℚ) (hoy : Fecha)
    (hb : 0 ≤ e.salario_base) (ht : 0 ≤ e.tarifa_hora) (hc : 0 ≤ e.porcentaje_comision)
    (hh : 0 ≤ h) (hhx : 0 ≤ hx) (hv : 0 ≤ v) (s : ℚ) (i : ℕ) :
    calcular_nomina_completa e h hx v hoy ≠ .error (.salarioNegativo s i) := by
  intro hcontra
  cases hres : calcular_salario_bruto e h hx v with
  | error err =>
      simp only [calcular_nomina_completa, hres] at hcontra
      obtain ⟨c, m, rfl⟩ := calcular_salario_bruto_error e h hx v err hres
      simp at hcontra
  | ok g =>
      have hg := calcular_salario_bruto_nonneg e h hx v g hres hb ht hc hh hhx hv
      have h1 := total_bonos_nonneg e v hoy hb hv
      have h2 := total_beneficios_nonneg e hoy
      have h3 := total_deducciones_le e g hoy hg
      simp only [calcular_nomina_completa, hres] at hcontra
      rw [if_neg (by push_neg; linarith)] at hcontra
      exact absurd hcontra (by simp)

theorem compute_full_never_negative_witness :
    (0 ≤ empleadoTemporal0.salario_base ∧ 0 ≤ empleadoTemporal0.tarifa_hora ∧
      0 ≤ empleadoTemporal0.porcentaje_comision) ∧
    calcular_nomina_completa empleadoTemporal0 0 0 0 hoy0 ≠ .error (.salarioNegativo 0 1) :=
  ⟨by refine ⟨?a, ?b, ?c⟩ <;> norm_num [empleadoTemporal0],
    compute_full_never_negative empleadoTemporal0 0 0 0 hoy0
      (by norm_num [empleadoTemporal0]) (by norm_num [empleadoTemporal0])
      (by norm_num [empleadoTemporal0]) le_rfl le_rfl le_rfl 0 1⟩

/-! ### Claims C4, C5 and C7 -/

/-- C4: For every POR_HORAS employee, the gross computation returns
`hours_worked * hourly_rate + overtime_hours * hourly_rate * 1.5` (rounded to
2 decimal places by the source rounding helper, per the global rounding rule of
the spec) when both hour inputs are nonnegative, and fails with
`ValidacionNominaException` (`InvalidInput`) when `hours_worked < 0` or
`overtime_hours < 0`; with `hours_worked = 45`, `overtime_hours = 5` and
`hourly_rate = 20000` the gross is exactly 1,050,000. -/
theorem compute_gross_por_horas_spec (e : Empleado) (h hx v : ℚ)
    (htipo : e.nombre_tipo = "POR_HORAS") :
    (0 ≤ h → 0 ≤ hx →
      calcular_salario_bruto e h hx v =
        .ok (redondear_decimal
          (h * e.tarifa_hora + hx * e.tarifa_hora * MULTIPLICADOR_HORA_EXTRA))) ∧
    (h < 0 ∨ hx < 0 →
      ∃ campo mensaje,
        calcular_salario_bruto e h hx v = .error (.validacionNomina campo mensaje)) ∧
    (e.tarifa_hora = 20000 →
      calcular_salario_bruto e 45 5 v = .ok 1050000) := by
  refine ⟨?ok, ?err, ?inst⟩
  · intro hh hhx
    simp [calcular_salario_bruto, htipo]
    rw [calcular_por_horas_ok e h hx hh hhx]
  · intro hneg
    by_cases hh0 : h < 0
    · refine ⟨"horas_trabajadas", "Las horas trabajadas no pueden ser negativas", ?e1⟩
      simp [calcular_salario_bruto, calcular_por_horas, htipo, hh0]
    · have hx0 : hx < 0 := hneg.resolve_left hh0
      refine ⟨"horas_extras", "Las horas extras no pueden ser negativas", ?e2⟩
      simp [calcular_salario_bruto, calcular_por_horas, htipo, hh0, hx0]
  · intro htar
    simp [calcular_salario_bruto, htipo]
    rw [calcular_por_horas_ok e 45 5 (by norm_num) (by norm_num), htar]
    norm_num [MULTIPLICADOR_HORA_EXTRA, redondear_decimal, roundHalfEven_eq_floor_form]

theorem compute_gross_por_horas_spec_witness :
    empleadoPorHoras0.nombre_tipo = "POR_HORAS" ∧
    calcular_salario_bruto empleadoPorHoras0 45 5 0 = .ok 1050000 :=
  ⟨rfl, (compute_gross_por_horas_spec empleadoPorHoras0 45 5 0 rfl).2.2 rfl⟩

/-- C5: For every employee and every gross, `calcular_deducciones` always
produces a SEGURIDAD_SOCIAL_PENSION line of 4% of gross and an ARL line of
0.522% of gross (both rounded to cents by the source percentage helper); it
produces a FONDO_AHORRO_EMPLEADO line of 2% of gross exactly when the type is
POR_HORAS, tenure is at least 1 year and the employee accepts the savings
fund; no other deduction lines exist, and every line records its
`porcentaje_aplicado` and `base_calculo = gross`. -/
theorem compute_deductions_spec (e : Empleado) (g : ℚ) (hoy : Fecha) :
    calcular_deducciones e g hoy =
      (calcular_porcentaje g 4 + calcular_porcentaje g 0.522 +
         (if e.nombre_tipo = "POR_HORAS" ∧
              1 ≤ calcular_anio_antiguedad e.fecha_ingreso hoy ∧
              e.acepta_fondo_ahorro = true then
           calcular_porcentaje g 2 else 0),
       [{ tipo_deduccion := "SEGURIDAD_SOCIAL_PENSION"
          descripcion := "Aporte a Seguridad Social y Pensión"
          monto := calcular_porcentaje g 4
          porcentaje_aplicado := 4
          base_calculo := g },
        { tipo_deduccion := "ARL"
          descripcion := "Aporte a Riesgos Laborales"
          monto := calcular_porcentaje g 0.522
          porcentaje_aplicado := 0.522
          base_calculo := g }] ++
         (if e.nombre_tipo = "POR_HORAS" ∧
              1 ≤ calcular_anio_antiguedad e.fecha_ingreso hoy ∧
              e.acepta_fondo_ahorro = true then
           [{ tipo_deduccion := "FONDO_AHORRO_EMPLEADO"
              descripcion := "Aporte del empleado a fondo de ahorro"
              monto := calcular_porcentaje g 2
              porcentaje_aplicado := 2
              base_calculo := g }] else [])) := by
  rw [calcular_deducciones_eq]
  norm_num [DEDUCCION_SEGURIDAD_SOCIAL_PENSION, DEDUCCION_ARL,
    FONDO_AHORRO_PORCENTAJE, anio_PARA_FONDO_AHORRO]

/-- C7: For every employee, the bonus list contains a BONO_VENTAS line if and
only if the type is POR_COMISION and the sales amount strictly exceeds
20,000,000 (so exactly at 20,000,000 no line is produced, and other employee
types never receive it); any such line equals 3% of the sales amount as
computed by the source percentage helper, and at sales = 20,000,001 that is
exactly 600,000.03. -/
theorem compute_bonuses_ventas_spec (e : Empleado) (v : ℚ) (hoy : Fecha) :
    (List.countP (fun b => b.tipo_bono == "BONO_VENTAS") (calcular_bonos e v hoy).2 =
      if e.nombre_tipo = "POR_COMISION" ∧ 20000000 < v then 1 else 0) ∧
    (∀ b ∈ (calcular_bonos e v hoy).2, b.tipo_bono = "BONO_VENTAS" →
      b.monto = calcular_porcentaje v 3) ∧
    calcular_porcentaje 20000001 3 = 600000.03 := by
  refine ⟨?cnt, ?amt, ?inst⟩
  · rw [calcular_bonos_eq]
    simp only [COMISION_VENTAS_LIMITE]
    norm_num
    split_ifs <;> simp
  · intro b hb hbv
    rw [calcular_bonos_eq] at hb
    simp only [List.mem_append] at hb
    rcases hb with hb | hb
    · split_ifs at hb with hc
      · simp only [List.mem_singleton] at hb
        subst hb
        simp at hbv
      · simp at hb
    · split_ifs at hb with hc
      · simp only [List.mem_singleton] at hb
        subst hb
        simp [BONO_VENTAS_PORCENTAJE]
      · simp at hb
  · norm_num [calcular_porcentaje, redondear_decimal, roundHalfEven_eq_floor_form]

/-! ### Order and arithmetic lemmas for dates -/

theorem Fecha.not_lt_iff (a b : Fecha) : ¬ Fecha.lt a b ↔ Fecha.le b a := by
  obtain ⟨ya, ma, da⟩ := a
  obtain ⟨yb, mb, db⟩ := b
  simp only [Fecha.lt, Fecha.le, Fecha.mk.injEq]
  omega

theorem Fecha.le_refl (a : Fecha) : Fecha.le a a := Or.inr rfl

theorem Fecha.le_of_lt (a b : Fecha) (h : Fecha.lt a b) : Fecha.le a b := Or.inl h

theorem Fecha.le_trans (a b c : Fecha) (h1 : Fecha.le a b) (h2 : Fecha.le b c) :
    Fecha.le a c := by
  obtain ⟨ya, ma, da⟩ := a
  obtain ⟨yb, mb, db⟩ := b
  obtain ⟨yc, mc, dc⟩ := c
  simp only [Fecha.lt, Fecha.le, Fecha.mk.injEq] at h1 h2 ⊢
  omega

theorem Fecha.lt_of_lt_of_le (a b c : Fecha) (h1 : Fecha.lt a b) (h2 : Fecha.le b c) :
    Fecha.lt a c := by
  obtain ⟨ya, ma, da⟩ := a
  obtain ⟨yb, mb, db⟩ := b
  obtain ⟨yc, mc, dc⟩ := c
  simp only [Fecha.lt, Fecha.le, Fecha.mk.injEq] at h1 h2 ⊢
  omega

theorem monthIdx_sumarMeses (d : Fecha) (k : ℤ) :
    monthIdx (sumarMeses d k) = monthIdx d + k := by
  simp only [sumarMeses, monthIdx]
  omega

theorem sumarMeses_month_bounds (d : Fecha) (k : ℤ) :
    1 ≤ (sumarMeses d k).month ∧ (sumarMeses d k).month ≤ 12 := by
  simp only [sumarMeses]
  omega

theorem diasEnMes_ge (y m : ℤ) : 28 ≤ diasEnMes y m := by
  rw [diasEnMes]
  split_ifs <;> norm_num

theorem sumarMeses_valida (d : Fecha) (hd : d.Valida) (k : ℤ) :
    (sumarMeses d k).Valida := by
  obtain ⟨h1, h2, h3, h4⟩ := hd
  have hb := sumarMeses_month_bounds d k
  have hdm := diasEnMes_ge (sumarMeses d k).year (sumarMeses d k).month
  refine ⟨hb.1, hb.2, ?d1, ?d2⟩
  · simp only [sumarMeses] at hdm ⊢
    omega
  · simp only [sumarMeses] at hdm ⊢
    omega

theorem lt_of_monthIdx_lt (a b : Fecha)
    (ha : 1 ≤ a.month ∧ a.month ≤ 12) (hb : 1 ≤ b.month ∧ b.month ≤ 12)
    (h : monthIdx a < monthIdx b) : Fecha.lt a b := by
  obtain ⟨ya, ma, da⟩ := a
  obtain ⟨yb, mb, db⟩ := b
  simp only [monthIdx, Fecha.lt] at *
  omega

theorem sumarMeses_zero (d : Fecha) (hd : d.Valida) : sumarMeses d 0 = d := by
  obtain ⟨h1, h2, h3, h4⟩ := hd
  obtain ⟨y, m, day⟩ := d
  simp only [Fecha.Valida] at h1 h2 h3 h4
  have hy : (12 * y + (m - 1) + 0) / 12 = y := by omega
  have hm : (12 * y + (m - 1) + 0) % 12 + 1 = m := by omega
  simp only [sumarMeses, Fecha.mk.injEq, hy, hm, true_and, and_true]
  exact min_eq_left h4

theorem sumarMeses_lt (d : Fecha) {j k : ℤ} (hjk : j < k) :
    Fecha.lt (sumarMeses d j) (sumarMeses d k) := by
  apply lt_of_monthIdx_lt _ _ (sumarMeses_month_bounds d j) (sumarMeses_month_bounds d k)
  rw [monthIdx_sumarMeses, monthIdx_sumarMeses]
  omega

theorem sumarMeses_mono (d : Fecha) {j k : ℤ} (hjk : j ≤ k) :
    Fecha.le (sumarMeses d j) (sumarMeses d k) := by
  rcases eq_or_lt_of_le hjk with rfl | hlt
  · exact Fecha.le_refl _
  · exact Fecha.le_of_lt _ _ (sumarMeses_lt d hlt)

theorem mesesEntre_of_not_lt (r h : Fecha) (hnlt : ¬ Fecha.lt r h) :
    mesesEntre r h =
      if Fecha.lt r (sumarMeses h (12 * (r.year - h.year) + (r.month - h.month)))
      then 12 * (r.year - h.year) + (r.month - h.month) - 1
      else 12 * (r.year - h.year) + (r.month - h.month) := by
  simp only [mesesEntre]
  rw [if_neg hnlt]

/-- The month count of `relativedelta` is exactly the number of clamped
month-additions that fit between the two dates: adding it to the start date
stays at or before the reference date, adding one more passes it. -/
theorem mesesEntre_bracket (r h : Fecha) (hvr : r.Valida) (hvh : h.Valida)
    (hle : Fecha.le h r) :
    Fecha.le (sumarMeses h (mesesEntre r h)) r ∧
      Fecha.lt r (sumarMeses h (mesesEntre r h + 1)) := by
  have hnlt : ¬ Fecha.lt r h := (Fecha.not_lt_iff r h).mpr hle
  have hidx : monthIdx h + (12 * (r.year - h.year) + (r.month - h.month)) = monthIdx r := by
    simp only [monthIdx]
    ring
  rw [mesesEntre_of_not_lt r h hnlt]
  by_cases hc : Fecha.lt r (sumarMeses h (12 * (r.year - h.year) + (r.month - h.month)))
  · rw [if_pos hc]
    constructor
    · refine Fecha.le_of_lt _ _ (lt_of_monthIdx_lt _ _ (sumarMeses_month_bounds h _)
        ⟨hvr.1, hvr.2.1⟩ ?i1)
      rw [monthIdx_sumarMeses]
      omega
    · rw [show 12 * (r.year - h.year) + (r.month - h.month) - 1 + 1 =
          12 * (r.year - h.year) + (r.month - h.month) by ring]
      exact hc
  · rw [if_neg hc]
    constructor
    · exact (Fecha.not_lt_iff r _).mp hc
    · refine lt_of_monthIdx_lt _ _ ⟨hvr.1, hvr.2.1⟩ (sumarMeses_month_bounds h _) ?i2
      rw [monthIdx_sumarMeses]
      omega

theorem le_sumarMeses_iff (r h : Fecha) (hvr : r.Valida) (hvh : h.Valida)
    (hle : Fecha.le h r) (k : ℤ) :
    Fecha.le (sumarMeses h k) r ↔ k ≤ mesesEntre r h := by
  obtain ⟨hb1, hb2⟩ := mesesEntre_bracket r h hvr hvh hle
  constructor
  · intro hk
    by_contra hgt
    push_neg at hgt
    have h1 : Fecha.le (sumarMeses h (mesesEntre r h + 1)) (sumarMeses h k) :=
      sumarMeses_mono h (by omega)
    have h2 : Fecha.lt r (sumarMeses h k) := Fecha.lt_of_lt_of_le _ _ _ hb2 h1
    exact (Fecha.not_lt_iff r (sumarMeses h k)).mpr hk h2
  · intro hk
    exact Fecha.le_trans _ _ _ (sumarMeses_mono h hk) hb1

theorem mesesEntre_nonneg (r h : Fecha) (hvr : r.Valida) (hvh : h.Valida)
    (hle : Fecha.le h r) : 0 ≤ mesesEntre r h := by
  by_contra hneg
  push_neg at hneg
  obtain ⟨hb1, hb2⟩ := mesesEntre_bracket r h hvr hvh hle
  have h1 : Fecha.le (sumarMeses h (mesesEntre r h + 1)) (sumarMeses h 0) :=
    sumarMeses_mono h (by omega)
  rw [sumarMeses_zero h hvh] at h1
  exact (Fecha.not_lt_iff r h).mpr hle (Fecha.lt_of_lt_of_le _ _ _ hb2 h1)

/-- The tenure computed from `relativedelta` reaches `n` whole years exactly
when the (day-clamped) `12 n`-month anniversary of the hire date has been
reached. -/
theorem anios_ge_iff (h r : Fecha) (hvh : h.Valida) (hvr : r.Valida)
    (hle : Fecha.le h r) (n : ℤ) :
    n ≤ calcular_anios_antiguedad h r ↔ Fecha.le (sumarMeses h (12 * n)) r := by
  have hm := mesesEntre_nonneg r h hvr hvh hle
  rw [calcular_anios_antiguedad, aniosDeMeses, if_neg (not_lt.mpr hm),
    le_sumarMeses_iff r h hvr hvh hle]
  omega

/-! ### Claim C6 -/

/-- C6: For every ASALARIADO employee, `calcular_bonos` includes exactly one
BONO_ANTIGUEDAD line, equal to 10% of `salario_base` (via the source
percentage helper) and recording the 10% applied percentage, if and only if
the tenure in whole years at the reference date is at least 5; for tenure
below 5 no such line is produced.  The tenure is the anniversary-aware whole
year difference: it reaches 5 exactly when the (day-clamped) 60-month
anniversary of the hire date has been reached. -/
theorem compute_bonuses_antiguedad_spec (e : Empleado) (v : ℚ) (hoy : Fecha)
    (htipo : e.nombre_tipo = "ASALARIADO")
    (hvi : e.fecha_ingreso.Valida) (hvh : hoy.Valida)
    (hle : Fecha.le e.fecha_ingreso hoy) :
    (List.countP (fun b => b.tipo_bono == "BONO_ANTIGUEDAD") (calcular_bonos e v hoy).2 =
      if 5 ≤ calcular_anio_antiguedad e.fecha_ingreso hoy then 1 else 0) ∧
    (∀ b ∈ (calcular_bonos e v hoy).2, b.tipo_bono = "BONO_ANTIGUEDAD" →
      b.monto = calcular_porcentaje e.salario_base 10 ∧ b.porcentaje_aplicado = 10) ∧
    (5 ≤ calcular_anio_antiguedad e.fecha_ingreso hoy ↔
      Fecha.le (sumarMeses e.fecha_ingreso 60) hoy) := by
  refine ⟨?cnt, ?amt, ?tenure⟩
  · rw [calcular_bonos_eq]
    simp only [htipo, anio_PARA_BONO_ANTIGUEDAD]
    split_ifs <;> simp_all
  · intro b hb hbt
    rw [calcular_bonos_eq] at hb
    simp only [List.mem_append] at hb
    rcases hb with hb | hb
    · split_ifs at hb with hc
      · simp only [List.mem_singleton] at hb
        subst hb
        simp [BONO_ANTIGUEDAD_PORCENTAJE]
      · simp at hb
    · split_ifs at hb with hc
      · simp only [List.mem_singleton] at hb
        subst hb
        simp at hbt
      · simp at hb
  · rw [calcular_anio_antiguedad]
    have hiff := anios_ge_iff e.fecha_ingreso hoy hvi hvh hle 5
    norm_num at hiff
    exact hiff

theorem compute_bonuses_antiguedad_spec_witness :
    (empleadoAsalariado0.nombre_tipo = "ASALARIADO" ∧
      empleadoAsalariado0.fecha_ingreso.Valida ∧ hoy0.Valida ∧
      Fecha.le empleadoAsalariado0.fecha_ingreso hoy0) ∧
    ((List.countP (fun b => b.tipo_bono == "BONO_ANTIGUEDAD")
        (calcular_bonos empleadoAsalariado0 0 hoy0).2 =
      if 5 ≤ calcular_anio_antiguedad empleadoAsalariado0.fecha_ingreso hoy0 then 1 else 0) ∧
    (∀ b ∈ (calcular_bonos empleadoAsalariado0 0 hoy0).2, b.tipo_bono = "BONO_ANTIGUEDAD" →
      b.monto = calcular_porcentaje empleadoAsalariado0.salario_base 10 ∧
        b.porcentaje_aplicado = 10) ∧
    (5 ≤ calcular_anio_antiguedad empleadoAsalariado0.fecha_ingreso hoy0 ↔
      Fecha.le (sumarMeses empleadoAsalariado0.fecha_ingreso 60) hoy0)) :=
  ⟨⟨rfl, by decide, by decide, by decide⟩,
    compute_bonuses_antiguedad_spec empleadoAsalariado0 0 hoy0 rfl
      (by decide) (by decide) (by decide)⟩

/-! ### Claim C8 -/

/-- C8: Whenever the create flow reaches the duplicate check (employee and
period resolve, period open) and a payroll already exists for the
(employee, period) pair, `calcular_y_crear_nomina` fails with the
NOMINA_DUPLICADA error carrying the id of the conflicting existing payroll,
and performs zero writes: the returned database state is exactly the input
state, so payrolls, detail lines and the audit trail are untouched. -/
theorem create_duplicate_spec (db : DB) (d : NominaCreate) (usuario : String)
    (hoy : Fecha) (emp : Empleado) (per : PeriodoNomina) (n0 : Nomina)
    (hemp : empleado_get_by_id db d.id_empleado = some emp)
    (hper : periodo_get_by_id db d.id_periodo = some per)
    (hopen : per.esta_cerrado = false)
    (hdup : get_by_empleado_periodo db d.id_empleado d.id_periodo = some n0) :
    calcular_y_crear_nomina db d usuario hoy =
      (db, .error (.nominaDuplicada d.id_empleado d.id_periodo n0.id_nomina)) := by
  simp [calcular_y_crear_nomina, hemp, hper, hopen, hdup]

theorem create_duplicate_spec_witness :
    (empleado_get_by_id db0 create0.id_empleado = some empleadoTemporal0 ∧
      periodo_get_by_id db0 create0.id_periodo = some periodoAbierto0 ∧
      periodoAbierto0.esta_cerrado = false ∧
      get_by_empleado_periodo db0 create0.id_empleado create0.id_periodo = some nomina0) ∧
    calcular_y_crear_nomina db0 create0 "SYSTEM" hoy0 =
      (db0, .error (.nominaDuplicada create0.id_empleado create0.id_periodo
        nomina0.id_nomina)) :=
  ⟨⟨rfl, rfl, rfl, rfl⟩,
    create_duplicate_spec db0 create0 "SYSTEM" hoy0 empleadoTemporal0 periodoAbierto0
      nomina0 rfl rfl rfl rfl⟩

/-! ### Claim C1 -/

theorem procesarEmpleado_total (id_periodo : ℕ) (usuario : String) (hoy : Fecha)
    (acc : DB × ResultadosMasivos) (e : Empleado) :
    (procesarEmpleado id_periodo usuario hoy acc e).2.total_empleados =
      acc.2.total_empleados := by
  simp only [procesarEmpleado]
  split
  · rfl
  · split
    · rfl
    · rfl

theorem foldl_total_empleados (id_periodo : ℕ) (usuario : String) (hoy : Fecha)
    (l : List Empleado) (acc : DB × ResultadosMasivos) :
    (l.foldl (procesarEmpleado id_periodo usuario hoy) acc).2.total_empleados =
      acc.2.total_empleados := by
  induction l generalizing acc with
  | nil => rfl
  | cons a t ih => rw [List.foldl_cons, ih, procesarEmpleado_total]

/-- C1 (failing input): on an open period with 101 ACTIVE employees, the bulk
processor reports `total_empleados = 100`, because the snapshot is taken with
`get_all_activos()` whose default `limit` is 100 — it does not process every
ACTIVE employee, although 101 ACTIVE employees exist. -/
theorem bulk_run_limit_bug :
    ((calcular_nominas_periodo dbMasivo 1 "SYSTEM" hoy0).2.map
        ResultadosMasivos.total_empleados = .ok 100) ∧
    (dbMasivo.empleados.filter (fun e => e.estado == EstadoEmpleado.ACTIVO)).length = 101 := by
  constructor
  · have hper : periodo_get_by_id dbMasivo 1 = some periodoAbierto0 := rfl
    have hc : periodoAbierto0.esta_cerrado = false := rfl
    simp only [calcular_nominas_periodo, hper, hc, Bool.false_eq_true, if_false, Except.map]
    rw [foldl_total_empleados]
    rfl
  · rfl

/-! ### List lemmas for the recalculation proof -/

theorem getD_getD (o : Option ℚ) (x : ℚ) : o.getD (o.getD x) = o.getD x := by
  cases o <;> rfl

theorem find?_map_update (l : List Nomina) (i : ℕ) (n2 : Nomina)
    (h2 : n2.id_nomina = i) :
    ∀ n, l.find? (fun x => x.id_nomina == i) = some n →
      (l.map (fun x => if x.id_nomina == i then n2 else x)).find?
        (fun x => x.id_nomina == i) = some n2 := by
  induction l with
  | nil =>
      intro n h
      simp at h
  | cons a t ih =>
      intro n h
      by_cases ha : a.id_nomina = i
      · simp [List.find?_cons, ha, h2]
      · simp only [List.find?_cons] at h ⊢
        simp only [List.map_cons]
        rw [if_neg (by simpa using ha)]
        simp only [List.find?_cons]
        have hbeq : (a.id_nomina == i) = false := by simpa using ha
        rw [hbeq] at h ⊢
        exact ih _ h

theorem map_update_idem (l : List Nomina) (i : ℕ) (n2 : Nomina)
    (h2 : n2.id_nomina = i) :
    (l.map (fun x => if x.id_nomina == i then n2 else x)).map
        (fun x => if x.id_nomina == i then n2 else x) =
      l.map (fun x => if x.id_nomina == i then n2 else x) := by
  rw [List.map_map]
  apply List.map_congr_left
  intro a _
  by_cases ha : a.id_nomina = i <;> simp [Function.comp, ha, h2]

theorem filter_idem {α : Type} (p : α → Bool) (l : List α) :
    (l.filter p).filter p = l.filter p := by
  induction l with
  | nil => rfl
  | cons a t ih =>
      by_cases hpa : p a = true
      · simp [List.filter_cons, hpa, ih]
      · simp [List.filter_cons, hpa, ih]

theorem filter_fst_map_nil {α : Type} (dets : List α) (i : ℕ) :
    ((dets.map (fun b => (i, b))).filter (fun r : ℕ × α => r.1 != i)) = [] := by
  induction dets with
  | nil => rfl
  | cons a t ih => simp [List.filter_cons, ih]

theorem filter_replace_stable {α : Type} (old : List (ℕ × α)) (i : ℕ)
    (newdets : List α) :
    ((old.filter (fun r => r.1 != i) ++ newdets.map (fun b => (i, b))).filter
        (fun r => r.1 != i)) = old.filter (fun r => r.1 != i) := by
  rw [List.filter_append, filter_idem, filter_fst_map_nil, List.append_nil]

/-! ### Claim C9 -/

/-- C9: For an existing payroll in an open period, a second `recalcular_nomina`
with identical inputs is idempotent on the payroll data: it succeeds and
returns the same header `n1`, and the stored payroll rows and all
bonus/benefit/deduction line rows after the second call are identical to those
after the first, while exactly one new audit entry is appended per call (two
calls produce two entries). -/
theorem recalculate_idempotent (db : DB) (i : ℕ) (upd : NominaUpdate)
    (usuario : String) (hoy : Fecha) (nom : Nomina) (per : PeriodoNomina)
    (emp : Empleado) (calculo : ResultadoNomina) (db1 : DB) (n1 : Nomina)
    (hnom : nomina_get_by_id db i = some nom)
    (hper : periodo_get_by_id db nom.id_periodo = some per)
    (hopen : per.esta_cerrado = false)
    (hemp : empleado_get_by_id db nom.id_empleado = some emp)
    (hcalc : calcular_nomina_completa emp
        (upd.horas_trabajadas.getD nom.horas_trabajadas)
        (upd.horas_extras.getD nom.horas_extras)
        (upd.ventas_realizadas.getD nom.ventas_realizadas) hoy = .ok calculo)
    (hcall1 : recalcular_nomina db i upd usuario hoy = (db1, .ok n1)) :
    (recalcular_nomina db1 i upd usuario hoy).2 = .ok n1 ∧
    (recalcular_nomina db1 i upd usuario hoy).1.nominas = db1.nominas ∧
    (recalcular_nomina db1 i upd usuario hoy).1.bonos = db1.bonos ∧
    (recalcular_nomina db1 i upd usuario hoy).1.beneficios = db1.beneficios ∧
    (recalcular_nomina db1 i upd usuario hoy).1.deducciones = db1.deducciones ∧
    (recalcular_nomina db1 i upd usuario hoy).1.auditorias.length =
      db1.auditorias.length + 1 ∧
    db1.auditorias.length = db.auditorias.length + 1 := by
  have hfind : db.nominas.find? (fun x => x.id_nomina == i) = some nom := hnom
  have hid : nom.id_nomina = i := by simpa using List.find?_some hfind
  simp only [recalcular_nomina, hnom, hper, hopen, hemp, hcalc, Bool.false_eq_true,
    if_false, Prod.mk.injEq, Except.ok.injEq] at hcall1
  obtain ⟨hdb, hok⟩ := hcall1
  subst hdb
  subst hok
  set n2 : Nomina :=
    { id_nomina := nom.id_nomina
      id_empleado := nom.id_empleado
      id_periodo := nom.id_periodo
      horas_trabajadas := upd.horas_trabajadas.getD nom.horas_trabajadas
      horas_extras := upd.horas_extras.getD nom.horas_extras
      ventas_realizadas := upd.ventas_realizadas.getD nom.ventas_realizadas
      salario_bruto := calculo.salario_bruto
      total_bonos := calculo.total_bonos
      total_beneficios := calculo.total_beneficios
      total_deducciones := calculo.total_deducciones
      salario_neto := calculo.salario_neto
      calculado_por := usuario } with hn2def
  set a1 : AuditoriaNomina :=
    { id_nomina := nom.id_nomina
      accion := "RECALCULAR"
      usuario := usuario
      descripcion := "Nómina recalculada con nuevos datos"
      valores_anteriores := some
        [("horas_trabajadas", nom.horas_trabajadas),
         ("horas_extras", nom.horas_extras),
         ("ventas_realizadas", nom.ventas_realizadas),
         ("salario_bruto", nom.salario_bruto),
         ("salario_neto", nom.salario_neto)]
      valores_nuevos := some
        [("horas_trabajadas", upd.horas_trabajadas.getD nom.horas_trabajadas),
         ("horas_extras", upd.horas_extras.getD nom.horas_extras),
         ("ventas_realizadas", upd.ventas_realizadas.getD nom.ventas_realizadas),
         ("salario_bruto", calculo.salario_bruto),
         ("salario_neto", calculo.salario_neto)] } with ha1def
  set db1 : DB :=
    { empleados := db.empleados
      periodos := db.periodos
      nominas := List.map (fun n => if n.id_nomina == i then n2 else n) db.nominas
      bonos := List.filter (fun r => r.1 != i) db.bonos ++
        List.map (fun b => (nom.id_nomina, b)) calculo.detalles_bonos
      beneficios := List.filter (fun r => r.1 != i) db.beneficios ++
        List.map (fun b => (nom.id_nomina, b)) calculo.detalles_beneficios
      deducciones := List.filter (fun r => r.1 != i) db.deducciones ++
        List.map (fun d => (nom.id_nomina, d)) calculo.detalles_deducciones
      auditorias := db.auditorias ++ [a1]
      next_id_nomina := db.next_id_nomina } with hdb1def
  have hid2 : n2.id_nomina = i := hid
  have hfind2 : db1.nominas.find? (fun x => x.id_nomina == i) = some n2 :=
    find?_map_update db.nominas i n2 hid2 nom hfind
  have hnom2 : nomina_get_by_id db1 i = some n2 := hfind2
  have hper2 : periodo_get_by_id db1 n2.id_periodo = some per := hper
  have hemp2 : empleado_get_by_id db1 n2.id_empleado = some emp := hemp
  have hcalc2 : calcular_nomina_completa emp
      (upd.horas_trabajadas.getD n2.horas_trabajadas)
      (upd.horas_extras.getD n2.horas_extras)
      (upd.ventas_realizadas.getD n2.ventas_realizadas) hoy = .ok calculo := by
    show calcular_nomina_completa emp
      (upd.horas_trabajadas.getD (upd.horas_trabajadas.getD nom.horas_trabajadas))
      (upd.horas_extras.getD (upd.horas_extras.getD nom.horas_extras))
      (upd.ventas_realizadas.getD (upd.ventas_realizadas.getD nom.ventas_realizadas)) hoy =
      .ok calculo
    rw [getD_getD, getD_getD, getD_getD]
    exact hcalc
  have hn2fix : ({ id_nomina := n2.id_nomina,
                   id_empleado := n2.id_empleado,
                   id_periodo := n2.id_periodo,
                   horas_trabajadas := upd.horas_trabajadas.getD n2.horas_trabajadas,
                   horas_extras := upd.horas_extras.getD n2.horas_extras,
                   ventas_realizadas := upd.ventas_realizadas.getD n2.ventas_realizadas,
                   salario_bruto := calculo.salario_bruto,
                   total_bonos := calculo.total_bonos,
                   total_beneficios := calculo.total_beneficios,
                   total_deducciones := calculo.total_deducciones,
                   salario_neto := calculo.salario_neto,
                   calculado_por := usuario } : Nomina) = n2 := by
    rw [hn2def]
    simp [getD_getD]
  refine ⟨?c1, ?c2, ?c3, ?c4, ?c5, ?c6, ?c7⟩
  case c1 =>
    simp only [recalcular_nomina, hnom2, hper2, hopen, hemp2, hcalc2,
      Bool.false_eq_true, if_false]
    rw [hn2fix]
  case c2 =>
    simp only [recalcular_nomina, hnom2, hper2, hopen, hemp2, hcalc2,
      Bool.false_eq_true, if_false]
    rw [hn2fix]
    exact map_update_idem db.nominas i n2 hid2
  case c3 =>
    simp only [recalcular_nomina, hnom2, hper2, hopen, hemp2, hcalc2,
      Bool.false_eq_true, if_false]
    rw [hid, filter_replace_stable]
  case c4 =>
    simp only [recalcular_nomina, hnom2, hper2, hopen, hemp2, hcalc2,
      Bool.false_eq_true, if_false]
    rw [hid, filter_replace_stable]
  case c5 =>
    simp only [recalcular_nomina, hnom2, hper2, hopen, hemp2, hcalc2,
      Bool.false_eq_true, if_false]
    rw [hid, filter_replace_stable]
  case c6 =>
    simp only [recalcular_nomina, hnom2, hper2, hopen, hemp2, hcalc2,
      Bool.false_eq_true, if_false]
    simp
  case c7 =>
    rw [hdb1def]
    simp


theorem recalc_calc0 : calcular_nomina_completa empleadoTemporal0 0 0 0 hoy0 = .ok calculo0 := by
  have hb : calcular_salario_bruto empleadoTemporal0 0 0 0 = .ok 100 := by
    simp [calcular_salario_bruto, calcular_temporal, empleadoTemporal0]
  have hbon : calcular_bonos empleadoTemporal0 0 hoy0 = (0, []) := by
    rw [calcular_bonos_eq]
    simp [empleadoTemporal0]
  have hben : calcular_beneficios empleadoTemporal0 hoy0 = (0, []) := by
    rw [calcular_beneficios_eq]
    simp [empleadoTemporal0]
  have hss : calcular_porcentaje 100 DEDUCCION_SEGURIDAD_SOCIAL_PENSION = 4 := by
    norm_num [calcular_porcentaje, redondear_decimal, roundHalfEven_eq_floor_form,
      DEDUCCION_SEGURIDAD_SOCIAL_PENSION]
  have harl : calcular_porcentaje 100 DEDUCCION_ARL = 0.52 := by
    norm_num [calcular_porcentaje, redondear_decimal, roundHalfEven_eq_floor_form,
      DEDUCCION_ARL]
  have hded : calcular_deducciones empleadoTemporal0 100 hoy0 =
      (4.52, [deduccionSS0, deduccionARL0]) := by
    rw [calcular_deducciones_eq, hss, harl]
    simp [empleadoTemporal0, deduccionSS0, deduccionARL0]
    norm_num [DEDUCCION_SEGURIDAD_SOCIAL_PENSION, DEDUCCION_ARL]
  simp only [calcular_nomina_completa, hb, hbon, hben, hded]
  norm_num [calculo0]

theorem recalc_call1 :
    recalcular_nomina db0 7 upd0 "SYSTEM" hoy0 = (db1w, .ok nomina0) := by
  have h1 : nomina_get_by_id db0 7 = some nomina0 := rfl
  have h2 : periodo_get_by_id db0 nomina0.id_periodo = some periodoAbierto0 := rfl
  have h3 : periodoAbierto0.esta_cerrado = false := rfl
  have h4 : empleado_get_by_id db0 nomina0.id_empleado = some empleadoTemporal0 := rfl
  have h5 : calcular_nomina_completa empleadoTemporal0
      (upd0.horas_trabajadas.getD nomina0.horas_trabajadas)
      (upd0.horas_extras.getD nomina0.horas_extras)
      (upd0.ventas_realizadas.getD nomina0.ventas_realizadas) hoy0 = .ok calculo0 :=
    recalc_calc0
  simp only [recalcular_nomina, h1, h2, h3, h4, h5, Bool.false_eq_true, if_false]
  norm_num [db0, db1w, nomina0, audit0, calculo0, upd0, empleadoTemporal0]

theorem recalculate_idempotent_witness :
    (nomina_get_by_id db0 7 = some nomina0 ∧
     periodo_get_by_id db0 nomina0.id_periodo = some periodoAbierto0 ∧
     periodoAbierto0.esta_cerrado = false ∧
     empleado_get_by_id db0 nomina0.id_empleado = some empleadoTemporal0 ∧
     recalcular_nomina db0 7 upd0 "SYSTEM" hoy0 = (db1w, .ok nomina0)) ∧
    ((recalcular_nomina db1w 7 upd0 "SYSTEM" hoy0).2 = .ok nomina0 ∧
     (recalcular_nomina db1w 7 upd0 "SYSTEM" hoy0).1.nominas = db1w.nominas ∧
     (recalcular_nomina db1w 7 upd0 "SYSTEM" hoy0).1.bonos = db1w.bonos ∧
     (recalcular_nomina db1w 7 upd0 "SYSTEM" hoy0).1.beneficios = db1w.beneficios ∧
     (recalcular_nomina db1w 7 upd0 "SYSTEM" hoy0).1.deducciones = db1w.deducciones ∧
     (recalcular_nomina db1w 7 upd0 "SYSTEM" hoy0).1.auditorias.length =
       db1w.auditorias.length + 1 ∧
     db1w.auditorias.length = db0.auditorias.length + 1) :=
  ⟨⟨rfl, rfl, rfl, rfl, recalc_call1⟩,
    recalculate_idempotent db0 7 upd0 "SYSTEM" hoy0 nomina0 periodoAbierto0
      empleadoTemporal0 calculo0 db1w nomina0 rfl rfl rfl rfl recalc_calc0 recalc_call1⟩
